import Mathlib

/-!
Shallow embedding of the "lazy" somersault ECU server
(src/examples/somersaultlazy.py, class SomersaultLazyServer).

The server owns a session state consisting of the open flag
(the field named diag_session_open in the source), the dizziness counter
(dizziness_level) and its bound (max_dizziness_level). Inbound frames are
decoded by the external message catalog; decoding is modelled by its
outcome (a raised DecodeError, or a list of decoded Messages). The random
source used by the flip loop is modelled as a function from the loop index
to the drawn integer in the interval from 0 to 9999. Responses written to
the transport are modelled by an inductive type: one constructor per
catalog-encoded response variant that the code selects, plus a raw
constructor for the generic 3-byte negative frame that the code assembles
itself with bytes, without invoking the catalog encode path.
-/

namespace SomersaultLazy

/-- Decoded diagnostic message as seen by handle_request: the service short
name, the coded (raw) request bytes, and the two parameters that the flip
handler reads from param_dict. For services other than do_forward_flips the
two parameter fields are unused. -/
structure Message where
  serviceName : String
  codedMessage : List Nat
  forward_soberness_check : Int
  num_flips : Int
deriving DecidableEq

/-- Mutable state of the SomersaultLazyServer instance: the session flag and
the two dizziness fields set in the constructor. -/
structure ServerState where
  diag_session_open : Bool
  dizziness_level : Int
  max_dizziness_level : Int
deriving DecidableEq

/-- One response written to the transport. The first eight constructors
stand for the catalog-encoded payloads that the code produces via
positive_responses or negative_responses encode calls; flipsNotDone carries
the reason code (0 = not sober, 1 = too dizzy, 2 = stumbled) and the
flips_successfully_done parameter. The raw constructor carries bytes
assembled by the server itself, bypassing the catalog. -/
inductive Response where
  | testerPresentPositive
  | testerPresentNegative
  | sessionStartPositive
  | sessionStartNegative
  | sessionStopPositive
  | sessionStopNegative
  | flipsNotDone (reason : Int) (flips_successfully_done : Int)
  | grudgingForward
  | raw (bytes : List Nat)
deriving DecidableEq

/-- True when producing the response invoked the catalog encode path; the
raw constructor is the only one assembled without the catalog. -/
def Response.usesCatalogEncode : Response → Bool
  | .raw _ => false
  | _ => true

/-- True when the response is a negative response: one of the
catalog-encoded negative variants (the flips_not_done variant is a
negative response of the do_forward_flips service), or a raw frame whose
first byte is the UDS negative-response marker 0x7f. -/
def Response.isNegative : Response → Bool
  | .testerPresentNegative => true
  | .sessionStartNegative => true
  | .sessionStopNegative => true
  | .flipsNotDone _ _ => true
  | .raw bytes => bytes.headD 0 == 0x7f
  | _ => false

/-- The step loop of handle_forward_flip_request: starting at loop index i
with the given dizziness value and the given number of remaining
iterations, draw rand at each index; a draw below 100 stops the loop at
that index (a stumble), otherwise dizziness is incremented and the loop
continues. Returns the final dizziness value and the stumble index, if
any. -/
def flipLoop (dizziness_level : Int) (rand : Nat → Nat) (i : Nat) :
    Nat → Int × Option Nat
  | 0 => (dizziness_level, none)
  | Nat.succ rest =>
    if rand i < 100 then
      (dizziness_level, some i)
    else
      flipLoop (dizziness_level + 1) rand (i + 1) rest

/-- Embedding of SomersaultLazyServer.handle_forward_flip_request: the
soberness gate (check code 0x12), the capacity gate (saturating dizziness
to the maximum and reporting the theoretical remaining count), and the
step loop over range(0, num_flips) with per-step stumble draws. Returns
the updated state and the single response written. -/
def handle_forward_flip_request (st : ServerState) (message : Message)
    (rand : Nat → Nat) : ServerState × Response :=
  if message.forward_soberness_check ≠ 0x12 then
    (st, Response.flipsNotDone 0 0)
  else if st.dizziness_level + message.num_flips > st.max_dizziness_level then
    ({ st with dizziness_level := st.max_dizziness_level },
      Response.flipsNotDone 1 (st.max_dizziness_level - st.dizziness_level))
  else
    match flipLoop st.dizziness_level rand 0 message.num_flips.toNat with
    | (d, some i) =>
      ({ st with dizziness_level := d }, Response.flipsNotDone 2 (Int.ofNat i))
    | (d, none) =>
      ({ st with dizziness_level := d }, Response.grudgingForward)

/-- Embedding of SomersaultLazyServer.handle_request: the dispatch over the
service short name, in source order: tester_present, session_start, the
closed-session gate writing the raw frame 0x7f / first request byte or
0 / 0x7f, session_stop, do_forward_flips, and the silent fall-through for
any other service. Returns the updated state and the list of responses
written (empty or a singleton). -/
def handle_request (st : ServerState) (message : Message) (rand : Nat → Nat) :
    ServerState × List Response :=
  if message.serviceName = "tester_present" then
    (st, [if st.diag_session_open then Response.testerPresentPositive
          else Response.testerPresentNegative])
  else if message.serviceName = "session_start" then
    ({ st with diag_session_open := true },
      [if st.diag_session_open then Response.sessionStartNegative
       else Response.sessionStartPositive])
  else if st.diag_session_open = false then
    (st, [Response.raw [0x7f, message.codedMessage.headD 0, 0x7f]])
  else if message.serviceName = "session_stop" then
    ({ st with diag_session_open := false },
      [if st.diag_session_open then Response.sessionStopPositive
       else Response.sessionStopNegative])
  else if message.serviceName = "do_forward_flips" then
    let res := handle_forward_flip_request st message rand
    (res.1, [res.2])
  else
    (st, [])

/-- Embedding of SomersaultLazyServer.close_diag_session: a no-op when the
session is already closed, otherwise clears the open flag and nothing
else. -/
def close_diag_session (st : ServerState) : ServerState :=
  if st.diag_session_open = false then st
  else { st with diag_session_open := false }

/-- State of the whole endpoint: the server fields plus the
data_receive_event flag shared with the keepalive supervisor task. -/
structure EndpointState where
  server : ServerState
  data_receive_event : Bool
deriving DecidableEq

/-- Endpoint state as built by the constructor: session closed, dizziness
0, the given maximum, event clear. The source constructor uses the
constant 10 for the maximum. -/
def initEndpoint (max_dizziness : Int) : EndpointState :=
  { server := { diag_session_open := false, dizziness_level := 0,
                max_dizziness_level := max_dizziness },
    data_receive_event := false }

/-- Outcome of the catalog decode call on one inbound frame: a raised
DecodeError, or the returned list of Messages. -/
inductive DecodeOutcome where
  | decodeError
  | decoded (msgs : List Message)
deriving DecidableEq

/-- Outcome of data_received on one frame: the request was dispatched and
the listed responses written; or the DecodeError was caught, logged as a
warning, and no response written; or the assertion that exactly one
message was decoded failed, raising an uncaught AssertionError (which the
except clause for DecodeError does not catch). Every outcome carries the
endpoint state left behind. -/
inductive RxResult where
  | responded (st : EndpointState) (responses : List Response)
  | decodeFailureLogged (st : EndpointState)
  | assertionError (st : EndpointState)
deriving DecidableEq

/-- The endpoint state left behind by a data_received call. -/
def RxResult.state : RxResult → EndpointState
  | .responded st _ => st
  | .decodeFailureLogged st => st
  | .assertionError st => st

/-- The responses written during a data_received call. -/
def RxResult.responses : RxResult → List Response
  | .responded _ rs => rs
  | .decodeFailureLogged _ => []
  | .assertionError _ => []

/-- Embedding of SomersaultLazyServer.data_received: the
data_receive_event is set first, unconditionally; then the frame is
decoded; a DecodeError is caught and logged with no response; a decoded
list of any length other than one fails the assertion; a single decoded
message is dispatched through handle_request. -/
def data_received (st : EndpointState) (d : DecodeOutcome) (rand : Nat → Nat) :
    RxResult :=
  let st1 : EndpointState := { st with data_receive_event := true }
  match d with
  | .decodeError => .decodeFailureLogged st1
  | .decoded msgs =>
    match msgs with
    | [message] =>
      let res := handle_request st1.server message rand
      .responded { st1 with server := res.1 } res.2
    | _ => .assertionError st1

/-- What wakes one iteration of the supervisor loop in
SomersaultLazyServer._run: the data_receive_event became set, the idle
timeout expired, or the task was cancelled. -/
inductive SupervisorWake where
  | dataEvent
  | idleTimeout
  | cancelled
deriving DecidableEq

/-- One iteration of the supervisor loop in SomersaultLazyServer._run:
on the idle timeout, close_diag_session and keep looping; on observing the
data event, clear it and keep looping with no other side effect; on
cancellation, return. The Bool is whether the loop continues. -/
def supervisor_step (st : EndpointState) : SupervisorWake → EndpointState × Bool
  | .idleTimeout => ({ st with server := close_diag_session st.server }, true)
  | .dataEvent => ({ st with data_receive_event := false }, true)
  | .cancelled => (st, false)

/-- One state-mutating event of the endpoint: one inbound frame processed
by data_received (with its decode outcome and the random draws the
dispatch may consume), or one supervisor wake. -/
inductive EcuOp where
  | rx (d : DecodeOutcome) (rand : Nat → Nat)
  | supervise (w : SupervisorWake)

/-- The endpoint state after one event. -/
def applyOp (st : EndpointState) : EcuOp → EndpointState
  | .rx d rand => (data_received st d rand).state
  | .supervise w => (supervisor_step st w).1

/-- The endpoint state after a sequence of events. -/
def runOps (st : EndpointState) (ops : List EcuOp) : EndpointState :=
  ops.foldl applyOp st

/-- The decoded step count of the message is nonnegative. -/
def Message.stepCountNonneg (m : Message) : Prop := 0 ≤ m.num_flips

/-- Every message decoded in the event has a nonnegative step count. -/
def EcuOp.stepCountsNonneg : EcuOp → Prop
  | .rx (.decoded msgs) _ => ∀ m ∈ msgs, m.stepCountNonneg
  | _ => True

/-- The dizziness invariant of the session state. -/
def Inv (st : ServerState) : Prop :=
  0 ≤ st.dizziness_level ∧ st.dizziness_level ≤ st.max_dizziness_level

/-- The step loop never decreases dizziness and increases it by at most the
number of remaining iterations. -/
theorem flipLoop_bounds (rand : Nat → Nat) :
    ∀ (n : Nat) (d : Int) (i : Nat),
      d ≤ (flipLoop d rand i n).1 ∧ (flipLoop d rand i n).1 ≤ d + n
  | 0, d, i => by simp [flipLoop]
  | Nat.succ rest, d, i => by
    simp only [flipLoop]
    split
    · constructor
      · exact le_refl d
      · simp
        positivity
    · have h := flipLoop_bounds rand rest (d + 1) (i + 1)
      constructor
      · exact le_trans (by omega) h.1
      · refine le_trans h.2 ?_
        push_cast
        omega

/-- When no draw in the window stumbles, the step loop runs all iterations
and increases dizziness by the full count. -/
theorem flipLoop_clean (rand : Nat → Nat) :
    ∀ (n : Nat) (d : Int) (i : Nat),
      (∀ j, j < n → 100 ≤ rand (i + j)) →
      flipLoop d rand i n = (d + n, none)
  | 0, d, i, _ => by simp [flipLoop]
  | Nat.succ rest, d, i, h => by
    have h0 : 100 ≤ rand i := by simpa using h 0 (Nat.succ_pos rest)
    have hrec := flipLoop_clean rand rest (d + 1) (i + 1)
      (fun j hj => by
        have := h (j + 1) (by omega)
        simpa [Nat.add_assoc, Nat.add_comm 1 j] using this)
    have hn : ¬ rand i < 100 := by omega
    simp only [flipLoop, if_neg hn]
    rw [hrec]
    simp only [Prod.mk.injEq]
    refine ⟨by push_cast; omega, trivial⟩

/-- When the first stumbling draw in the window is at offset k, the step
loop stops there, having increased dizziness by exactly k. -/
theorem flipLoop_stumble (rand : Nat → Nat) :
    ∀ (n : Nat) (d : Int) (i k : Nat),
      k < n → rand (i + k) < 100 → (∀ j, j < k → 100 ≤ rand (i + j)) →
      flipLoop d rand i n = (d + k, some (i + k))
  | 0, _, _, k, hk, _, _ => absurd hk (Nat.not_lt_zero k)
  | Nat.succ rest, d, i, k, hk, hstum, hpre => by
    match k with
    | 0 =>
      simp only [flipLoop, if_pos (by simpa using hstum)]
      simp
    | Nat.succ k0 =>
      have h0 : 100 ≤ rand i := by simpa using hpre 0 (Nat.succ_pos k0)
      have hrec := flipLoop_stumble rand rest (d + 1) (i + 1) k0
        (by omega)
        (by
          have : i + 1 + k0 = i + (k0 + 1) := by omega
          rw [this]
          exact hstum)
        (fun j hj => by
          have := hpre (j + 1) (by omega)
          simpa [Nat.add_assoc, Nat.add_comm 1 j] using this)
      have hn : ¬ rand i < 100 := by omega
      simp only [flipLoop, if_neg hn]
      rw [hrec]
      simp only [Prod.mk.injEq, Option.some.injEq]
      refine ⟨by push_cast; omega, by omega⟩

/-- The flip handler preserves the dizziness invariant when the decoded
step count is nonnegative. -/
theorem handle_forward_flip_request_inv (st : ServerState) (m : Message)
    (rand : Nat → Nat) (hinv : Inv st) (hn : 0 ≤ m.num_flips) :
    Inv (handle_forward_flip_request st m rand).1 := by
  obtain ⟨h0, h1⟩ := hinv
  unfold handle_forward_flip_request
  split
  · exact ⟨h0, h1⟩
  split
  · exact ⟨le_trans h0 h1, le_refl _⟩
  rename_i hsob hcap
  have hb := flipLoop_bounds rand m.num_flips.toNat st.dizziness_level 0
  have htn : (m.num_flips.toNat : Int) = m.num_flips := Int.toNat_of_nonneg hn
  simp only [gt_iff_lt, not_lt] at hcap
  split
  · rename_i d i heq
    rw [heq] at hb
    have hb2 : st.dizziness_level ≤ d ∧
        d ≤ st.dizziness_level + (m.num_flips.toNat : Int) := hb
    exact ⟨le_trans h0 hb2.1, by show d ≤ st.max_dizziness_level; omega⟩
  · rename_i d heq
    rw [heq] at hb
    have hb2 : st.dizziness_level ≤ d ∧
        d ≤ st.dizziness_level + (m.num_flips.toNat : Int) := hb
    exact ⟨le_trans h0 hb2.1, by show d ≤ st.max_dizziness_level; omega⟩

/-- The flip handler never decreases dizziness, from a state that
satisfies the invariant. -/
theorem handle_forward_flip_request_mono (st : ServerState) (m : Message)
    (rand : Nat → Nat) (hinv : Inv st) :
    st.dizziness_level ≤ (handle_forward_flip_request st m rand).1.dizziness_level := by
  unfold handle_forward_flip_request
  split
  · exact le_refl _
  split
  · exact hinv.2
  have hb := flipLoop_bounds rand m.num_flips.toNat st.dizziness_level 0
  split
  · rename_i d i heq
    rw [heq] at hb
    exact hb.1
  · rename_i d heq
    rw [heq] at hb
    exact hb.1

/-- The dispatcher preserves the dizziness invariant when the decoded step
count is nonnegative. -/
theorem handle_request_inv (st : ServerState) (m : Message) (rand : Nat → Nat)
    (hinv : Inv st) (hn : 0 ≤ m.num_flips) :
    Inv (handle_request st m rand).1 := by
  unfold handle_request
  split_ifs <;>
    first
      | exact hinv
      | exact handle_forward_flip_request_inv st m rand hinv hn

/-- The dispatcher never decreases dizziness, from a state satisfying the
invariant. -/
theorem handle_request_mono (st : ServerState) (m : Message) (rand : Nat → Nat)
    (hinv : Inv st) :
    st.dizziness_level ≤ (handle_request st m rand).1.dizziness_level := by
  unfold handle_request
  split_ifs <;>
    first
      | exact le_refl _
      | exact handle_forward_flip_request_mono st m rand hinv

/-- Closing the diagnostic session touches neither dizziness field. -/
theorem close_diag_session_fields (st : ServerState) :
    (close_diag_session st).dizziness_level = st.dizziness_level ∧
    (close_diag_session st).max_dizziness_level = st.max_dizziness_level := by
  unfold close_diag_session
  split <;> exact ⟨rfl, rfl⟩

/-- One endpoint event preserves the dizziness invariant. -/
theorem applyOp_inv (st : EndpointState) (op : EcuOp) (hinv : Inv st.server)
    (hop : op.stepCountsNonneg) : Inv (applyOp st op).server := by
  cases op with
  | rx d rand =>
    cases d with
    | decodeError => exact hinv
    | decoded msgs =>
      match msgs with
      | [] => exact hinv
      | [m] =>
        have hn : 0 ≤ m.num_flips := hop m (List.mem_singleton_self m)
        exact handle_request_inv st.server m rand hinv hn
      | m1 :: m2 :: rest => exact hinv
  | supervise w =>
    cases w with
    | dataEvent => exact hinv
    | cancelled => exact hinv
    | idleTimeout =>
      have h := close_diag_session_fields st.server
      show Inv (close_diag_session st.server)
      exact ⟨by rw [h.1]; exact hinv.1, by rw [h.1, h.2]; exact hinv.2⟩

/-- A sequence of endpoint events preserves the dizziness invariant. -/
theorem runOps_inv : ∀ (ops : List EcuOp) (st : EndpointState),
    Inv st.server → (∀ op ∈ ops, op.stepCountsNonneg) →
    Inv (runOps st ops).server
  | [], _, hinv, _ => hinv
  | op :: rest, st, hinv, hops =>
    runOps_inv rest (applyOp st op)
      (applyOp_inv st op hinv (hops op (List.mem_cons_self op rest)))
      (fun o ho => hops o (List.mem_cons_of_mem op ho))

/-- Claim C1: from the initial endpoint state with a closed session,
dizziness 0 and a nonnegative maximum, every sequence of dispatched
requests with nonnegative decoded step counts and supervisor events
reaches only states satisfying 0 less-or-equal dizziness less-or-equal
max_dizziness; each mutating operation preserves the invariant. -/
theorem dizziness_invariant (const : Int) (hconst : 0 ≤ const)
    (ops : List EcuOp) (hops : ∀ op ∈ ops, op.stepCountsNonneg) :
    Inv (runOps (initEndpoint const) ops).server :=
  runOps_inv ops (initEndpoint const) ⟨le_refl 0, hconst⟩ hops

/-- Witness for C1 at the constant 10 used by the source constructor and a
sequence of one supervisor timeout close. -/
theorem dizziness_invariant_witness :
    (0 : Int) ≤ 10 ∧
      Inv (runOps (initEndpoint 10)
        [EcuOp.supervise SupervisorWake.idleTimeout]).server :=
  ⟨by decide, dizziness_invariant 10 (by decide) _ (by
    intro op hop
    rcases List.mem_singleton.mp hop with rfl
    trivial)⟩

/-- Claim C8: when the soberness check code differs from 0x12, the flip
handler fails with reason 0 (not sober), reports 0 flips done and returns
the state unchanged, for every random source. -/
theorem flip_soberness_gate (st : ServerState) (m : Message)
    (rand : Nat → Nat) (h : m.forward_soberness_check ≠ 0x12) :
    handle_forward_flip_request st m rand = (st, Response.flipsNotDone 0 0) := by
  unfold handle_forward_flip_request
  rw [if_pos h]

/-- Witness for C8: the spec scenario flip with check 0x23 and one step,
under a random source that would stumble on every draw. -/
theorem flip_soberness_gate_witness :
    (0x23 : Int) ≠ 0x12 ∧
      handle_forward_flip_request ⟨true, 0, 10⟩
          ⟨"do_forward_flips", [0xBD, 0x23, 0x01], 0x23, 1⟩ (fun _ => 0) =
        (⟨true, 0, 10⟩, Response.flipsNotDone 0 0) :=
  ⟨by decide, flip_soberness_gate _ _ _ (by decide)⟩

/-- Claim C3: past the soberness gate, when dizziness plus the requested
steps exceeds the maximum, the flip handler fails with reason 1 (too
dizzy), reports the theoretical remaining count max_dizziness minus
dizziness, and saturates dizziness to the maximum. -/
theorem flip_capacity_gate (st : ServerState) (m : Message)
    (rand : Nat → Nat) (hsober : m.forward_soberness_check = 0x12)
    (hcap : st.max_dizziness_level < st.dizziness_level + m.num_flips) :
    handle_forward_flip_request st m rand =
      ({ st with dizziness_level := st.max_dizziness_level },
        Response.flipsNotDone 1 (st.max_dizziness_level - st.dizziness_level)) := by
  unfold handle_forward_flip_request
  rw [if_neg (not_not_intro hsober), if_pos hcap]

/-- Witness for C3 at the spec scenario: dizziness 9, maximum 10, flip with
check 0x12 and 5 steps reports 1 done and leaves dizziness 10. -/
theorem flip_capacity_gate_witness :
    (0x12 : Int) = 0x12 ∧ (10 : Int) < 9 + 5 ∧
      handle_forward_flip_request ⟨true, 9, 10⟩
          ⟨"do_forward_flips", [], 0x12, 5⟩ (fun _ => 5000) =
        (⟨true, 10, 10⟩, Response.flipsNotDone 1 1) :=
  ⟨rfl, by decide, flip_capacity_gate _ _ _ rfl (by decide)⟩

/-- Claim C2: past the soberness and capacity gates, if the first random
draw below 100 happens at step k, the flip handler fails with reason 2
(stumbled), reports exactly k flips done and leaves dizziness at its
accumulated value dizziness plus k without saturation; if no draw is
below 100, it succeeds with the grudging response and dizziness grows by
exactly the requested step count. -/
theorem flip_step_execution (st : ServerState) (m : Message)
    (rand : Nat → Nat) (hsober : m.forward_soberness_check = 0x12)
    (hn : 0 ≤ m.num_flips)
    (hcap : st.dizziness_level + m.num_flips ≤ st.max_dizziness_level) :
    (∀ k : Nat, (k : Int) < m.num_flips → rand k < 100 →
      (∀ j, j < k → 100 ≤ rand j) →
      handle_forward_flip_request st m rand =
        ({ st with dizziness_level := st.dizziness_level + k },
          Response.flipsNotDone 2 (Int.ofNat k))) ∧
    ((∀ k : Nat, (k : Int) < m.num_flips → 100 ≤ rand k) →
      handle_forward_flip_request st m rand =
        ({ st with dizziness_level := st.dizziness_level + m.num_flips },
          Response.grudgingForward)) := by
  have htn : (m.num_flips.toNat : Int) = m.num_flips := Int.toNat_of_nonneg hn
  constructor
  · intro k hk hstum hpre
    have hkn : k < m.num_flips.toNat := by omega
    have hfl := flipLoop_stumble rand m.num_flips.toNat st.dizziness_level 0 k
      hkn (by simpa using hstum) (fun j hj => by simpa using hpre j hj)
    unfold handle_forward_flip_request
    rw [if_neg (not_not_intro hsober), if_neg (by omega)]
    rw [hfl]
    simp
  · intro hclean
    have hfl := flipLoop_clean rand m.num_flips.toNat st.dizziness_level 0
      (fun j hj => by simpa using hclean j (by omega))
    unfold handle_forward_flip_request
    rw [if_neg (not_not_intro hsober), if_neg (by omega)]
    rw [hfl]
    rw [htn]

/-- Witness for C2 on the success path of the spec scenario: dizziness 0,
maximum 10, 3 steps, every draw 500, ending grudging with dizziness 3. -/
theorem flip_step_execution_witness :
    handle_forward_flip_request ⟨true, 0, 10⟩
        ⟨"do_forward_flips", [], 0x12, 3⟩ (fun _ => 500) =
      (⟨true, 3, 10⟩, Response.grudgingForward) := by
  have h := (flip_step_execution ⟨true, 0, 10⟩
      ⟨"do_forward_flips", [], 0x12, 3⟩ (fun _ => 500) rfl (by decide)
      (by decide)).2 (fun k _ => by norm_num)
  simpa using h

/-- A session_stop request received while the session is closed falls into
the closed-session gate of handle_request: the raw generic negative frame
is written and the state is returned untouched. -/
theorem handle_request_stop_closed (st : ServerState) (m : Message)
    (r : Nat → Nat) (hm : m.serviceName = "session_stop")
    (hclosed : st.diag_session_open = false) :
    handle_request st m r =
      (st, [Response.raw [0x7f, m.codedMessage.headD 0, 0x7f]]) := by
  unfold handle_request
  rw [if_neg (by rw [hm]; decide), if_neg (by rw [hm]; decide), if_pos hclosed]

/-- After any session_stop request the session flag is false, whatever it
was before. -/
theorem handle_request_stop_closes (st : ServerState) (m : Message)
    (r : Nat → Nat) (hm : m.serviceName = "session_stop") :
    (handle_request st m r).1.diag_session_open = false := by
  unfold handle_request
  rw [if_neg (by rw [hm]; decide), if_neg (by rw [hm]; decide)]
  by_cases h : st.diag_session_open = false
  · rw [if_pos h]
    exact h
  · rw [if_neg h, if_pos hm]

/-- Claim C5: a session_stop received while the session is closed produces
one negative response (the raw generic negative frame, whose first byte is
the negative marker) and leaves the state, including dizziness, unchanged;
and after two consecutive session_stop requests from any state, the
session is closed and the second response is negative. -/
theorem stop_session_while_closed (st st0 : ServerState) (m m1 m2 : Message)
    (r r1 r2 : Nat → Nat) (hm : m.serviceName = "session_stop")
    (hclosed : st.diag_session_open = false)
    (hm1 : m1.serviceName = "session_stop")
    (hm2 : m2.serviceName = "session_stop") :
    handle_request st m r =
      (st, [Response.raw [0x7f, m.codedMessage.headD 0, 0x7f]]) ∧
    (∀ resp ∈ (handle_request st m r).2, Response.isNegative resp = true) ∧
    (handle_request (handle_request st0 m1 r1).1 m2 r2).1.diag_session_open
      = false ∧
    (∀ resp ∈ (handle_request (handle_request st0 m1 r1).1 m2 r2).2,
      Response.isNegative resp = true) := by
  have h1 := handle_request_stop_closed st m r hm hclosed
  have hclosed1 : (handle_request st0 m1 r1).1.diag_session_open = false :=
    handle_request_stop_closes st0 m1 r1 hm1
  have h2 := handle_request_stop_closed (handle_request st0 m1 r1).1 m2 r2
    hm2 hclosed1
  refine ⟨h1, ?_, ?_, ?_⟩
  · rw [h1]
    intro resp hresp
    rcases List.mem_singleton.mp hresp with rfl
    rfl
  · rw [h2]
    exact hclosed1
  · rw [h2]
    intro resp hresp
    rcases List.mem_singleton.mp hresp with rfl
    rfl

/-- Witness for C5: stop while closed from dizziness 2, and a double stop
starting from an open session. -/
theorem stop_session_while_closed_witness :
    (handle_request ⟨false, 2, 10⟩ ⟨"session_stop", [0x10], 0, 0⟩
        (fun _ => 0) =
      (⟨false, 2, 10⟩, [Response.raw [0x7f, 0x10, 0x7f]])) ∧
    (∀ resp ∈ (handle_request ⟨false, 2, 10⟩ ⟨"session_stop", [0x10], 0, 0⟩
        (fun _ => 0)).2, Response.isNegative resp = true) ∧
    (handle_request
        (handle_request ⟨true, 2, 10⟩ ⟨"session_stop", [0x10], 0, 0⟩
          (fun _ => 0)).1
        ⟨"session_stop", [0x10], 0, 0⟩ (fun _ => 0)).1.diag_session_open
      = false ∧
    (∀ resp ∈ (handle_request
        (handle_request ⟨true, 2, 10⟩ ⟨"session_stop", [0x10], 0, 0⟩
          (fun _ => 0)).1
        ⟨"session_stop", [0x10], 0, 0⟩ (fun _ => 0)).2,
      Response.isNegative resp = true) :=
  stop_session_while_closed ⟨false, 2, 10⟩ ⟨true, 2, 10⟩
    ⟨"session_stop", [0x10], 0, 0⟩ ⟨"session_stop", [0x10], 0, 0⟩
    ⟨"session_stop", [0x10], 0, 0⟩ (fun _ => 0) (fun _ => 0) (fun _ => 0)
    rfl rfl rfl rfl

/-- Claim C7: while the session is closed, a request for any service other
than tester_present and session_start is answered with exactly the raw
3-byte frame 0x7f, first request byte or 0, 0x7f, assembled without the
catalog encode path. -/
theorem session_gate_generic_frame (st : ServerState) (m : Message)
    (rand : Nat → Nat) (hclosed : st.diag_session_open = false)
    (h1 : m.serviceName ≠ "tester_present")
    (h2 : m.serviceName ≠ "session_start") :
    handle_request st m rand =
      (st, [Response.raw [0x7f, m.codedMessage.headD 0, 0x7f]]) ∧
    (∀ resp ∈ (handle_request st m rand).2,
      Response.usesCatalogEncode resp = false) := by
  have heq : handle_request st m rand =
      (st, [Response.raw [0x7f, m.codedMessage.headD 0, 0x7f]]) := by
    unfold handle_request
    rw [if_neg h1, if_neg h2, if_pos hclosed]
  refine ⟨heq, ?_⟩
  rw [heq]
  intro resp hresp
  rcases List.mem_singleton.mp hresp with rfl
  rfl

/-- Witness for C7 at the spec scenario: a do_forward_flips request with
first raw byte 0x31 while closed is answered with 0x7f 0x31 0x7f. -/
theorem session_gate_generic_frame_witness :
    (handle_request ⟨false, 0, 10⟩ ⟨"do_forward_flips", [0x31], 0x12, 1⟩
        (fun _ => 500) =
      (⟨false, 0, 10⟩, [Response.raw [0x7f, 0x31, 0x7f]])) ∧
    (∀ resp ∈ (handle_request ⟨false, 0, 10⟩
        ⟨"do_forward_flips", [0x31], 0x12, 1⟩ (fun _ => 500)).2,
      Response.usesCatalogEncode resp = false) :=
  session_gate_generic_frame ⟨false, 0, 10⟩
    ⟨"do_forward_flips", [0x31], 0x12, 1⟩ (fun _ => 500)
    rfl (by decide) (by decide)

/-- Claim C4 counterexample: a successfully decoded message for a service
the dispatcher does not recognize, received while the session is open,
produces zero responses, so zero responses do not occur only for
undecodable input. -/
theorem one_response_per_message_counterexample :
    (handle_request ⟨true, 0, 10⟩ ⟨"do_backward_flips", [0x31], 0, 0⟩
      (fun _ => 0)).2.length = 0 := by
  decide

/-- Claim C4 (amended): the dispatcher writes exactly one response per
decoded message, except for a message of an unrecognized service received
while the session is open, which is silently ignored and produces none. -/
theorem one_response_per_message (st : ServerState) (m : Message)
    (rand : Nat → Nat) :
    (handle_request st m rand).2.length =
      (if m.serviceName = "tester_present" ∨ m.serviceName = "session_start" ∨
          m.serviceName = "session_stop" ∨
          m.serviceName = "do_forward_flips" ∨
          st.diag_session_open = false then 1 else 0) := by
  unfold handle_request
  split_ifs <;> simp_all

/-- Claim C6 counterexample: a decode call returning zero messages ends in
the uncaught assertion failure, not in the caught-and-logged DecodeError
path. -/
theorem decode_count_counterexample :
    data_received (initEndpoint 10) (DecodeOutcome.decoded []) (fun _ => 0) =
      RxResult.assertionError
        { initEndpoint 10 with data_receive_event := true } ∧
    data_received (initEndpoint 10) (DecodeOutcome.decoded []) (fun _ => 0) ≠
      RxResult.decodeFailureLogged
        { initEndpoint 10 with data_receive_event := true } := by
  decide

/-- Claim C6 (amended): a raised DecodeError is caught and logged with no
response written and processing returning normally; a decode call that
returns any number of messages other than one also writes no response, but
ends in an uncaught AssertionError escaping the receive handler instead of
the logged decode-failure treatment. -/
theorem decode_failure_handling (st : EndpointState) (msgs : List Message)
    (rand rand2 : Nat → Nat) (h : msgs.length ≠ 1) :
    data_received st DecodeOutcome.decodeError rand =
      RxResult.decodeFailureLogged { st with data_receive_event := true } ∧
    (data_received st DecodeOutcome.decodeError rand).responses = [] ∧
    data_received st (DecodeOutcome.decoded msgs) rand2 =
      RxResult.assertionError { st with data_receive_event := true } ∧
    (data_received st (DecodeOutcome.decoded msgs) rand2).responses = [] := by
  match msgs with
  | [] => exact ⟨rfl, rfl, rfl, rfl⟩
  | [m] => exact absurd rfl h
  | m1 :: m2 :: rest => exact ⟨rfl, rfl, rfl, rfl⟩

/-- Witness for the amended C6 at a two-message decode result. -/
theorem decode_failure_handling_witness :
    ([⟨"session_start", [], 0, 0⟩,
      ⟨"session_stop", [], 0, 0⟩] : List Message).length ≠ 1 ∧
      data_received (initEndpoint 10)
          (DecodeOutcome.decoded [⟨"session_start", [], 0, 0⟩,
            ⟨"session_stop", [], 0, 0⟩]) (fun _ => 0) =
        RxResult.assertionError
          { initEndpoint 10 with data_receive_event := true } :=
  ⟨by decide, (decode_failure_handling (initEndpoint 10)
    [⟨"session_start", [], 0, 0⟩, ⟨"session_stop", [], 0, 0⟩]
    (fun _ => 0) (fun _ => 0) (by decide)).2.2.1⟩

/-- Claim C9: from a state satisfying the dizziness invariant, no endpoint
event (dispatched frame, flip, supervisor close) decreases dizziness;
closing the session touches only the open flag, and a session_start
dispatch carries dizziness over unchanged into the new session. -/
theorem dizziness_monotone (st : EndpointState) (op : EcuOp)
    (sv : ServerState) (m : Message) (r : Nat → Nat)
    (hinv : Inv st.server) (hstart : m.serviceName = "session_start") :
    st.server.dizziness_level ≤ (applyOp st op).server.dizziness_level ∧
    (close_diag_session sv).dizziness_level = sv.dizziness_level ∧
    (close_diag_session sv).max_dizziness_level = sv.max_dizziness_level ∧
    (handle_request sv m r).1.dizziness_level = sv.dizziness_level := by
  refine ⟨?_, (close_diag_session_fields sv).1,
    (close_diag_session_fields sv).2, ?_⟩
  · cases op with
    | rx d rand =>
      cases d with
      | decodeError => exact le_refl _
      | decoded msgs =>
        match msgs with
        | [] => exact le_refl _
        | [mm] => exact handle_request_mono st.server mm rand hinv
        | m1 :: m2 :: rest => exact le_refl _
    | supervise w =>
      cases w with
      | dataEvent => exact le_refl _
      | cancelled => exact le_refl _
      | idleTimeout =>
        show st.server.dizziness_level ≤
          (close_diag_session st.server).dizziness_level
        rw [(close_diag_session_fields st.server).1]
  · unfold handle_request
    rw [if_neg (by rw [hstart]; decide), if_pos hstart]

/-- Witness for C9 at the initial endpoint with a supervisor close and a
session_start dispatched from dizziness 5. -/
theorem dizziness_monotone_witness :
    (initEndpoint 10).server.dizziness_level ≤
      (applyOp (initEndpoint 10)
        (EcuOp.supervise SupervisorWake.idleTimeout)).server.dizziness_level ∧
    (close_diag_session ⟨true, 5, 10⟩).dizziness_level =
      (⟨true, 5, 10⟩ : ServerState).dizziness_level ∧
    (close_diag_session ⟨true, 5, 10⟩).max_dizziness_level =
      (⟨true, 5, 10⟩ : ServerState).max_dizziness_level ∧
    (handle_request ⟨true, 5, 10⟩ ⟨"session_start", [], 0, 0⟩
        (fun _ => 0)).1.dizziness_level =
      (⟨true, 5, 10⟩ : ServerState).dizziness_level :=
  dizziness_monotone (initEndpoint 10)
    (EcuOp.supervise SupervisorWake.idleTimeout) ⟨true, 5, 10⟩
    ⟨"session_start", [], 0, 0⟩ (fun _ => 0) ⟨by decide, by decide⟩ rfl

/-- Claim C10: data_received sets the data_receive_event before any decode
outcome is examined, so the event is set even for frames that fail to
decode; a supervisor iteration that observes the set event clears it and
leaves the server state, including the session flag, untouched, instead of
performing the idle-timeout close. -/
theorem idle_signal_set_first (st : EndpointState) (d : DecodeOutcome)
    (rand : Nat → Nat) :
    (data_received st d rand).state.data_receive_event = true ∧
    (supervisor_step (data_received st d rand).state
      SupervisorWake.dataEvent).1.server = (data_received st d rand).state.server ∧
    (supervisor_step (data_received st d rand).state
      SupervisorWake.dataEvent).1.data_receive_event = false := by
  refine ⟨?_, rfl, rfl⟩
  cases d with
  | decodeError => rfl
  | decoded msgs =>
    match msgs with
    | [] => rfl
    | [m] => rfl
    | m1 :: m2 :: rest => rfl
end SomersaultLazy
